import Mathlib

/-!
Shallow embedding of the `abb_robot_client` Python package (files
`src/abb_robot_client/rws2.py` and `src/abb_robot_client/rws_mock.py`)
for verification of its natural-language specification.

HTTP traffic is modelled by an `HttpOutcome` describing what the controller
did with one request (a response with a status and an optional decoded JSON
body, or a connection-level failure).  Python exceptions are modelled by the
`PyErr` type and fallible code returns `Except PyErr _`.  JSON values are
modelled by the inductive `Json` type; numeric wire values are decimal
strings, parsed to `Rat` exactly where the Python code converts them
(`numpy` `float64` construction, `int(...)`, `float(...)`).
-/

set_option autoImplicit false
set_option linter.unusedVariables false
set_option linter.unnecessarySeqFocus false

namespace AbbClient

/-- Association-list lookup: first binding for the key, as in a decoded
Python dict (whose keys are unique). -/
def alistGet {β : Type} : List (String × β) → String → Option β
  | [], _ => none
  | (k, v) :: rest, key => if k = key then some v else alistGet rest key

/-- Association-list update with last-write-wins semantics, as in a Python
dict assignment `d[k] = v`. -/
def alistSet {β : Type} : List (String × β) → String → β → List (String × β)
  | [], key, v => [(key, v)]
  | (k, v') :: rest, key, v =>
    if k = key then (key, v) :: rest else (k, v') :: alistSet rest key v

/-- JSON values as decoded by `response.json()`. Wire numbers are integers
(`Json.num`) or decimal strings (`Json.str`), matching the RWS wire format. -/
inductive Json where
  | null : Json
  | boolean : Bool → Json
  | num : Int → Json
  | str : String → Json
  | arr : List Json → Json
  | obj : List (String × Json) → Json

/-- Python exceptions that the embedded code can raise.  `malformedResponse`
is the error type named by the specification; it exists in this universe so
that theorems can state whether the code ever produces it. -/
inductive PyErr where
  | keyError : String → PyErr
  | typeError : PyErr
  | valueError : PyErr
  | indexError : PyErr
  | requestException : Option Nat → PyErr
  | abbException : String → Int → PyErr
  | unboundLocalError : PyErr
  | exception : String → PyErr
  | malformedResponse : String → PyErr
deriving DecidableEq

/-- Outcome of one HTTP request: either a response arrived with a status code
and an optional JSON-decodable body (`none` body models empty or
non-JSON content), or the connection itself failed (DNS/timeout/refused). -/
inductive HttpOutcome where
  | resp : Nat → Option Json → HttpOutcome
  | connError : HttpOutcome

/-- Embedding of `requests.Response.raise_for_status`: raises `HTTPError`
(a `RequestException`) exactly when the status code is 4xx or 5xx. -/
def raiseForStatus (status : Nat) : Except PyErr Unit :=
  if 400 ≤ status then .error (.requestException (some status)) else .ok ()

/-- Embedding of `response.json()`: returns the decoded body, raising a
`JSONDecodeError` (a `RequestException`) when the body is empty or not JSON. -/
def responseJson (body : Option Json) : Except PyErr Json :=
  match body with
  | some j => .ok j
  | none => .error (.requestException none)

/-- Embedding of `RWS2._do_get` (rws2.py lines 131-139).  The request is
made, `raise_for_status` and `.json()` run inside a
`try ... except requests.RequestException` whose handler prints and
returns `None`; a connection failure raises inside the same `try`. -/
def do_get (o : HttpOutcome) : Option Json :=
  match o with
  | .connError => none
  | .resp status body =>
    match raiseForStatus status with
    | .error _ => none
    | .ok _ =>
      match responseJson body with
      | .error _ => none
      | .ok j => some j

/-- Embedding of `RWS2._do_post` (rws2.py lines 146-160).  Inside the
handler for `requests.RequestException` the code reads
`response.status_code`: on status 403 it raises
`ABBException("Mastership required for this operation", 403)`, on any other
received status it prints and returns `None`.  When the connection itself
failed the local `response` was never assigned, so the handler's read of
`response.status_code` raises `UnboundLocalError`. -/
def do_post (o : HttpOutcome) : Except PyErr (Option Json) :=
  match o with
  | .connError => .error .unboundLocalError
  | .resp status body =>
    match raiseForStatus status with
    | .error _ =>
      if status = 403 then
        .error (.abbException "Mastership required for this operation" 403)
      else
        .ok none
    | .ok _ =>
      match body with
      | none => .ok none
      | some j =>
        match responseJson (some j) with
        | .error _ => if status = 403 then
            .error (.abbException "Mastership required for this operation" 403)
          else
            .ok none
        | .ok v => .ok (some v)

/-- Conceptual state of the mastership arbiter (spec section 4.2). -/
inductive Mastership where
  | Released : Mastership
  | Held : Mastership
deriving DecidableEq

/-- Client-visible state threaded through mastership-scoped operations: the
arbiter state together with the list of URLs POSTed so far. -/
structure ClientState where
  mastership : Mastership
  posts : List String
deriving DecidableEq

/-- Embedding of `RWS2.request_mastership` (rws2.py lines 821-826): POSTs to
`rw/mastership/request` and ignores the response entirely, so it never
raises; the arbiter is Held afterwards. -/
def request_mastership (st : ClientState) : ClientState :=
  { mastership := .Held, posts := st.posts ++ ["rw/mastership/request"] }

/-- Embedding of `RWS2.release_mastership` (rws2.py lines 828-833): POSTs to
`rw/mastership/release` and ignores the response; the arbiter is Released
afterwards. -/
def release_mastership (st : ClientState) : ClientState :=
  { mastership := .Released, posts := st.posts ++ ["rw/mastership/release"] }

/-- Embedding of `RWS2.set_rapid_variable` (rws2.py lines 388-403).
`postOutcome` is the controller's handling of the variable-write POST.  The
source executes `request_mastership()`, then `_do_post(...)`, then
`release_mastership()`, with no `try/finally`: when `_do_post` raises, the
exception propagates and `release_mastership` is never reached.  Returns the
Python result (or propagated exception) together with the client state at
exit. -/
def set_rapid_variable (var : String) (value : String) (task : Option String)
    (postOutcome : HttpOutcome) (st : ClientState) :
    Except PyErr Unit × ClientState :=
  let var1 := match task with
    | some t => t ++ "/" ++ var
    | none => var
  let st1 := request_mastership st
  let st2 := { st1 with
    posts := st1.posts ++ ["rw/rapid/symbol/RAPID/" ++ var1 ++ "/data?mastership=implicit"] }
  match do_post postOutcome with
  | .error e => (.error e, st2)
  | .ok _ => (.ok (), release_mastership st2)

/-- Embedding of Python `x[key]` subscription with a string key: dict lookup
raising `KeyError` when the key is absent, `TypeError` on any non-dict
value (including `None`, lists and strings). -/
def Json.getKey : Json → String → Except PyErr Json
  | .obj fs, key =>
    match alistGet fs key with
    | some v => .ok v
    | none => .error (.keyError key)
  | _, _ => .error .typeError

/-- Embedding of Python `x[i]` subscription with a non-negative integer
index: list indexing raising `IndexError` when out of range, `TypeError` on
non-sequences (the call sites never index strings). -/
def Json.getIdx : Json → Nat → Except PyErr Json
  | .arr xs, i =>
    match xs.get? i with
    | some v => .ok v
    | none => .error .indexError
  | _, _ => .error .typeError

/-- Subscripting the result of `_do_get`, which may be `None`:
`None[key]` raises `TypeError`. -/
def getKeyOpt : Option Json → String → Except PyErr Json
  | none, _ => .error .typeError
  | some j, key => j.getKey key

/-- Split a character list at every occurrence of the separator, keeping
empty groups, as Python `str.split(sep)` does for a one-character `sep`. -/
def splitOnChar (sep : Char) : List Char → List (List Char)
  | [] => [[]]
  | c :: rest =>
    match splitOnChar sep rest with
    | [] => [[c]]
    | g :: gs => if c = sep then [] :: g :: gs else (c :: g) :: gs

/-- Whether the first list is an initial segment of the second. -/
def listLead : List Char → List Char → Bool
  | [], _ => true
  | _ :: _, [] => false
  | a :: as, b :: bs => a = b && listLead as bs

/-- Whether the needle occurs as a contiguous segment of the haystack, as
the Python substring test `needle in hay`. -/
def listHasSub (hay needle : List Char) : Bool :=
  match hay with
  | [] => needle.isEmpty
  | _ :: rest => listLead needle hay || listHasSub rest needle

/-- Embedding of the Python containment test `key in x`: key lookup on
dicts, substring test on strings, element membership on lists, `TypeError`
on other values. -/
def Json.hasKey : Json → String → Except PyErr Bool
  | .obj fs, key => .ok (alistGet fs key).isSome
  | .str s, key => .ok (listHasSub s.toList key.toList)
  | .arr xs, key =>
    .ok (xs.any fun j => match j with
      | .str s => s = key
      | _ => false)
  | _, _ => .error .typeError

/-- Value of a nonempty all-digit character list, accumulator form. -/
def digitsVal (cs : List Char) : Nat :=
  cs.foldl (fun a c => 10 * a + (c.toNat - 48)) 0

/-- Parse an optionally signed decimal digit sequence, as Python `int`
applied to a string; `ValueError` otherwise. -/
def pyIntOfChars (cs : List Char) : Except PyErr Int :=
  let core : List Char → Except PyErr Int := fun ds =>
    if ds ≠ [] ∧ ds.all Char.isDigit then .ok (digitsVal ds : Int)
    else .error .valueError
  match cs with
  | '-' :: ds => (core ds).map Neg.neg
  | '+' :: ds => core ds
  | ds => core ds

/-- Embedding of Python `int(x)` at the wire-field call sites: integers pass
through, strings must be optionally signed decimal digit sequences
(`ValueError` otherwise), booleans coerce to 0/1, and other values raise
`TypeError`. -/
def pyInt : Json → Except PyErr Int
  | .num n => .ok n
  | .boolean b => .ok (if b then 1 else 0)
  | .str s => pyIntOfChars s.toList
  | _ => .error .typeError

/-- Parse an unsigned decimal literal (`5`, `5.25`, `5.`, `.5`) to an exact
rational; `none` when the characters are not such a literal. -/
def parseUnsignedDecimal (cs : List Char) : Option Rat :=
  match splitOnChar '.' cs with
  | [ip] =>
    if ip ≠ [] ∧ ip.all Char.isDigit then
      some ((digitsVal ip : Nat) : Rat)
    else none
  | [ip, fp] =>
    if ip.all Char.isDigit ∧ fp.all Char.isDigit ∧ (ip ≠ [] ∨ fp ≠ []) then
      some ((digitsVal ip : Rat) +
        (digitsVal fp : Rat) / ((10 : Rat) ^ fp.length))
    else none
  | _ => none

/-- Parse an optionally signed decimal literal to an exact rational. -/
def parseDecimal (s : String) : Option Rat :=
  match s.toList with
  | '-' :: cs => (parseUnsignedDecimal cs).map Neg.neg
  | '+' :: cs => parseUnsignedDecimal cs
  | cs => parseUnsignedDecimal cs

/-- Embedding of Python `float(x)` / numpy `float64` element conversion as
applied to wire values: numbers and decimal strings convert (strings that
are not decimal literals raise `ValueError`); other values raise
`TypeError`.  Values are kept exact as rationals. -/
def pyFloat : Json → Except PyErr Rat
  | .num n => .ok (n : Rat)
  | .boolean b => .ok (if b then 1 else 0)
  | .str s =>
    match parseDecimal s with
    | some q => .ok q
    | none => .error .valueError
  | _ => .error .typeError

/-- Embedding of the IntEnum `SubscriptionResourceType` (rws2.py lines
78-93). -/
inductive SubscriptionResourceType where
  | ControllerState
  | OperationalMode
  | ExecutionState
  | PersVar
  | IpcQueue
  | Elog
  | Signal
deriving DecidableEq

/-- Embedding of the IntEnum `SubscriptionResourcePriority` (rws2.py lines
95-99). -/
inductive SubscriptionResourcePriority where
  | Low
  | Medium
  | High
deriving DecidableEq

/-- Pydantic coercion of a wire integer to `SubscriptionResourceType`:
succeeds exactly on the member values 1..7. -/
def subscriptionResourceTypeOfInt : Int → Option SubscriptionResourceType
  | 1 => some .ControllerState
  | 2 => some .OperationalMode
  | 3 => some .ExecutionState
  | 4 => some .PersVar
  | 5 => some .IpcQueue
  | 6 => some .Elog
  | 7 => some .Signal
  | _ => none

/-- Pydantic coercion of a wire integer to `SubscriptionResourcePriority`:
succeeds exactly on the member values 0..2. -/
def subscriptionResourcePriorityOfInt : Int → Option SubscriptionResourcePriority
  | 0 => some .Low
  | 1 => some .Medium
  | 2 => some .High
  | _ => none

/-- Embedding of the pydantic model `SubscriptionResourceRequest` (rws2.py
lines 101-104): fields `resource_type`, `priority` and `param`.  The model
declares no validator beyond the per-field coercions. -/
structure SubscriptionResourceRequest where
  resource_type : SubscriptionResourceType
  priority : SubscriptionResourcePriority
  param : Option String
deriving DecidableEq

/-- Pydantic construction `SubscriptionResourceRequest(resource_type=rt,
priority=p, param=param)` from wire integers: each field is validated
against its enum; no cross-field check exists in the model. -/
def subscriptionResourceRequestOfInts (rt p : Int) (param : Option String) :
    Option SubscriptionResourceRequest :=
  match subscriptionResourceTypeOfInt rt, subscriptionResourcePriorityOfInt p with
  | some t, some pr => some ⟨t, pr, param⟩
  | _, _ => none

/-- Embedding of `RWSMock._qualify_var` (rws_mock.py lines 164-165):
`f"{task}/{var}" if task else var`; an empty task string is falsy. -/
def qualify_var (var task : String) : String :=
  if task ≠ "" then task ++ "/" ++ var else var

/-- State of `RWSMock` relevant to the claims: the RAPID variable store
(string-to-string, `self._rapid`), the digital IO store (`self._dio`) and
the analog IO store (`self._aio`), as association lists. -/
structure RWSMockState where
  rapid : List (String × String)
  dio : List (String × Int)
  aio : List (String × Rat)

/-- Embedding of `RWSMock.get_rapid_variable` (rws_mock.py lines 167-169):
`self._rapid.get(self._qualify_var(var, task), "0")`. -/
def mock_get_rapid_variable (st : RWSMockState) (var task : String) : String :=
  (alistGet st.rapid (qualify_var var task)).getD "0"

/-- Embedding of `RWSMock.set_rapid_variable` (rws_mock.py lines 182-184):
stores `str(value)` under the qualified key; the value arrives here already
in its canonical string form, on which Python `str` is the identity. -/
def mock_set_rapid_variable (st : RWSMockState) (var value task : String) :
    RWSMockState :=
  { st with rapid := alistSet st.rapid (qualify_var var task) value }

/-- Embedding of `RWSMock.get_rapid_variable_num` (rws_mock.py lines
171-172): `float(self.get_rapid_variable(var, task))`, with the Python
string-to-float conversion abstracted as `decode`. -/
def mock_get_rapid_variable_num {α : Type} (decode : String → α)
    (st : RWSMockState) (var task : String) : α :=
  decode (mock_get_rapid_variable st var task)

/-- Embedding of `RWSMock.set_rapid_variable_num` (rws_mock.py lines
186-187): `self.set_rapid_variable(var, str(val), task)`, with the Python
float-to-string conversion abstracted as `encode`. -/
def mock_set_rapid_variable_num {α : Type} (encode : α → String)
    (st : RWSMockState) (var : String) (val : α) (task : String) : RWSMockState :=
  mock_set_rapid_variable st var (encode val) task

/-- Embedding of `RWSMock.get_digital_io` (rws_mock.py lines 151-152):
`int(self._dio.get(signal, 0))`; the `network` and `unit` parameters are
accepted and ignored. -/
def mock_get_digital_io (st : RWSMockState) (signal network unit : String) : Int :=
  (alistGet st.dio signal).getD 0

/-- Embedding of `RWSMock.get_analog_io` (rws_mock.py lines 157-158):
`float(self._aio.get(signal, 0.0))`; `network` and `unit` are ignored. -/
def mock_get_analog_io (st : RWSMockState) (signal network unit : String) : Rat :=
  (alistGet st.aio signal).getD 0

/-- GET path used by `RWS2.get_io` when both network and unit are given. -/
def ioQualifiedPath (network unit signal : String) : String :=
  "rw/iosystem/signals/" ++ network ++ "/" ++ unit ++ "/" ++ signal

/-- GET path used by `RWS2.get_io` for bare-name lookup. -/
def ioBarePath (signal : String) : String :=
  "rw/iosystem/signals/" ++ signal

/-- Embedding of `RWS2.get_io` (rws2.py lines 288-302).  `ctrl` models the
controller as the HTTP outcome it produces for each GET path.  The Python
condition `if network and unit:` selects the qualified path exactly when
both strings are non-empty; in both branches the value is extracted as
`res_json["_embedded"]["resources"][0]["lvalue"]`. -/
def get_io (signal network unit : String) (ctrl : String → HttpOutcome) :
    Except PyErr Json := do
  let res_json :=
    if network ≠ "" ∧ unit ≠ "" then do_get (ctrl (ioQualifiedPath network unit signal))
    else do_get (ctrl (ioBarePath signal))
  let e ← getKeyOpt res_json "_embedded"
  let rs ← e.getKey "resources"
  let r0 ← rs.getIdx 0
  r0.getKey "lvalue"

/-- Sequential mapping of a fallible operation over a list, as a Python
`for` loop that appends results and lets the first exception propagate. -/
def exceptMapList {α β : Type} (f : α → Except PyErr β) :
    List α → Except PyErr (List β)
  | [] => .ok []
  | a :: as => do
    let b ← f a
    let bs ← exceptMapList f as
    pure (b :: bs)

/-- Python attribute access such as `.split` requires a string receiver;
other values raise (modelled as `TypeError`). -/
def asPyStr : Json → Except PyErr String
  | .str s => .ok s
  | _ => .error .typeError

/-- Pydantic v2 lax validation of a `str` field: accepts exactly JSON
strings. -/
def pydanticStr : Json → Option String
  | .str s => some s
  | _ => none

/-- Pydantic v2 lax validation of a `bool` field: accepts booleans, the
integers 0 and 1, and the usual true/false strings. -/
def pydanticBool : Json → Option Bool
  | .boolean b => some b
  | .num 0 => some false
  | .num 1 => some true
  | .str s =>
    if s ∈ ["true", "True", "TRUE", "1", "on", "yes"] then some true
    else if s ∈ ["false", "False", "FALSE", "0", "off", "no"] then some false
    else none
  | _ => none

/-- Timestamp as produced by `datetime.datetime.strptime`. -/
structure Timestamp where
  year : Nat
  month : Nat
  day : Nat
  hour : Nat
  minute : Nat
  second : Nat
deriving DecidableEq

/-- Embedding of `datetime.datetime.strptime(s, '%Y-%m-%d T %H:%M:%S')`:
six digit groups laid out as in the format, with the calendar and clock
ranges checked; any mismatch raises `ValueError`. -/
def parseTimestamp (s : String) : Except PyErr Timestamp :=
  match splitOnChar ' ' s.toList with
  | [d, tmark, t] =>
    if tmark = ['T'] then
      (match splitOnChar '-' d, splitOnChar ':' t with
       | [y, mo, da], [h, mi, se] =>
         if [y, mo, da, h, mi, se].all
             (fun p => !p.isEmpty && p.all Char.isDigit) then
           let Y := digitsVal y
           let M := digitsVal mo
           let D := digitsVal da
           let H := digitsVal h
           let Mi := digitsVal mi
           let S := digitsVal se
           if 1 ≤ M ∧ M ≤ 12 ∧ 1 ≤ D ∧ D ≤ 31 ∧ H ≤ 23 ∧ Mi ≤ 59 ∧ S ≤ 59 then
             .ok ⟨Y, M, D, H, Mi, S⟩
           else .error .valueError
         else .error .valueError
       | _, _ => .error .valueError)
    else .error .valueError
  | _ => .error .valueError

/-- Embedding of the pydantic model `EventLogEntry` (rws2.py lines 17-27). -/
structure EventLogEntry where
  seqnum : Int
  msgtype : Int
  code : Int
  tstamp : Timestamp
  args : List Json
  title : String
  desc : String
  conseqs : String
  causes : String
  actions : String

/-- Body of the inner `argv` loop of `read_event_log`: `arg["value"]`. -/
def getValueField (a : Json) : Except PyErr Json :=
  a.getKey "value"

/-- Embedding of the loop body of `RWS2.read_event_log` (rws2.py lines
469-486) for one collection entry: the entry dict is built in source
order, the unused local `nargs = int(log_entry["argc"])` is still
evaluated (its only effect is the exception `int` may raise), the `argv`
values are collected when the key is present, and the record is
validated.  No comparison between `nargs` and the collected argument list
appears in the source. -/
def parseLogEntry (log_entry : Json) : Except PyErr EventLogEntry := do
  let titleSeg ← asPyStr (← log_entry.getKey "_title")
  let seqnum ← pyIntOfChars ((splitOnChar '/' titleSeg.toList).getLastD [])
  let msgtype ← pyInt (← log_entry.getKey "msgtype")
  let code ← pyInt (← log_entry.getKey "code")
  let tstamp ← parseTimestamp (← asPyStr (← log_entry.getKey "tstamp"))
  let titleJ ← log_entry.getKey "title"
  let descJ ← log_entry.getKey "desc"
  let conseqsJ ← log_entry.getKey "conseqs"
  let causesJ ← log_entry.getKey "causes"
  let actionsJ ← log_entry.getKey "actions"
  let nargs ← pyInt (← log_entry.getKey "argc")
  let hasArgv ← log_entry.hasKey "argv"
  let args ←
    if hasArgv then do
      match ← log_entry.getKey "argv" with
      | .arr xs => exceptMapList getValueField xs
      | _ => .error .typeError
    else pure []
  let lift : Option String → Except PyErr String := fun v =>
    match v with
    | some s => .ok s
    | none => .error (.exception "ValidationError")
  let title ← lift (pydanticStr titleJ)
  let desc ← lift (pydanticStr descJ)
  let conseqs ← lift (pydanticStr conseqsJ)
  let causes ← lift (pydanticStr causesJ)
  let actions ← lift (pydanticStr actionsJ)
  pure ⟨seqnum, msgtype, code, tstamp, args, title, desc, conseqs, causes, actions⟩

/-- Embedding of `RWS2.read_event_log` (rws2.py lines 458-488), with `o`
the controller's outcome for the event-log GET; the collection lives at
`res_json["_embedded"]["resources"]`. -/
def read_event_log (o : HttpOutcome) : Except PyErr (List EventLogEntry) := do
  let e ← getKeyOpt (do_get o) "_embedded"
  match ← e.getKey "resources" with
  | .arr entries => exceptMapList parseLogEntry entries
  | _ => .error .typeError

/-- A RobTarget as constructed by `RWS2.get_robtarget`: translation,
quaternion, configuration and external-axis groups, kept exact as
rationals (numpy parses the wire strings into float64 arrays). -/
structure RobTarget where
  trans : List Rat
  rot : List Rat
  robconf : List Rat
  extax : List Rat
deriving DecidableEq

/-- One numeric group of `get_robtarget`: the listed keys of the state
object are looked up (in the order of the list literal) and then converted
with numpy float64 semantics. -/
def numGroup (state : Json) (keys : List String) : Except PyErr (List Rat) := do
  let raw ← exceptMapList state.getKey keys
  exceptMapList pyFloat raw

/-- The state extraction `res_json["state"][0]` of `get_robtarget`. -/
def robtargetState (o : HttpOutcome) : Except PyErr Json := do
  let stateArr ← getKeyOpt (do_get o) "state"
  stateArr.getIdx 0

/-- Embedding of `RWS2.get_robtarget` (rws2.py lines 533-551): takes
`state = res_json["state"][0]` and builds the translation, rotation,
configuration and external-axis groups in source order; each field access
can raise `KeyError` and each conversion `ValueError` or `TypeError`; a
`RobTarget` is constructed only after every group has converted. -/
def get_robtarget (o : HttpOutcome) : Except PyErr RobTarget := do
  let state ← robtargetState o
  let trans ← numGroup state ["x", "y", "z"]
  let rot ← numGroup state ["q1", "q2", "q3", "q4"]
  let robconf ← numGroup state ["cf1", "cf4", "cf6", "cfx"]
  let extax ← numGroup state ["eax_a", "eax_b", "eax_c", "eax_d", "eax_e", "eax_f"]
  pure ⟨trans, rot, robconf, extax⟩

/-- Embedding of the pydantic model `TaskState` (rws2.py lines 32-38). -/
structure TaskState where
  name : String
  type : String
  taskstate : String
  excstate : String
  active : Bool
  motiontask : Bool
deriving DecidableEq

/-- Embedding of `TaskState.model_validate` (pydantic): the six declared
fields must be present with `str`/`bool`-coercible values; extra fields
are ignored; any `ValidationError` yields `none`. -/
def taskStateValidate : Json → Option TaskState
  | .obj fs => do
    let name ← pydanticStr (← alistGet fs "name")
    let ty ← pydanticStr (← alistGet fs "type")
    let taskstate ← pydanticStr (← alistGet fs "taskstate")
    let excstate ← pydanticStr (← alistGet fs "excstate")
    let active ← pydanticBool (← alistGet fs "active")
    let motiontask ← pydanticBool (← alistGet fs "motiontask")
    pure ⟨name, ty, taskstate, excstate, active, motiontask⟩
  | _ => none

/-- The entry loop of `RWS2.get_tasks` (rws2.py lines 502-508).  For each
collection entry the membership test `"name" not in s` runs outside the
`try` block (so its `TypeError` on unsubscriptable entries propagates),
entries without a name are skipped, and a `ValidationError` inside the
`try` is caught, printed and skipped.  A validated entry is stored in the
dict under its `name` key (the raw `s["name"]`, which pydantic guarantees
equals the validated field). -/
def taskFold : List Json → List (String × TaskState) →
    Except PyErr (List (String × TaskState))
  | [], acc => .ok acc
  | s :: rest, acc => do
    let has ← s.hasKey "name"
    if !has then taskFold rest acc
    else
      match taskStateValidate s with
      | some ts => taskFold rest (alistSet acc ts.name ts)
      | none => taskFold rest acc

/-- Embedding of `RWS2.get_tasks` (rws2.py lines 491-509): a `None`
transport result returns the empty dict, otherwise the collection at
`_embedded.resources` is fed through the entry loop. -/
def get_tasks (o : HttpOutcome) : Except PyErr (List (String × TaskState)) :=
  match do_get o with
  | none => .ok []
  | some res_json => do
    match ← (← res_json.getKey "_embedded").getKey "resources" with
    | .arr entries => taskFold entries []
    | _ => .error .typeError

/-- Effect of `RWS2.activate_task` (rws2.py lines 195-201) on the
controller task store, following the repository's own controller model
`RWSMock.activate_task` (rws_mock.py lines 142-144): the named task, when
present, becomes active. -/
def activate_task (ctrl : List TaskState) (task : String) : List TaskState :=
  ctrl.map fun t => if t.name = task then { t with active := true } else t

/-- Effect of `RWS2.deactivate_task` (rws2.py lines 203-209) on the
controller task store, following `RWSMock.deactivate_task` (rws_mock.py
lines 146-148). -/
def deactivate_task (ctrl : List TaskState) (task : String) : List TaskState :=
  ctrl.map fun t => if t.name = task then { t with active := false } else t

/-- One iteration of the activation loop of `RWS2.start` (rws2.py lines
182-190) acting on the store `ctrl` for snapshot entry `rob_task`:
non-motion tasks are skipped; a motion task listed in `tasks` is activated
when the snapshot saw it inactive; a motion task not listed is deactivated
when the snapshot saw it active. -/
def startStep (tasks : List String) (ctrl : List TaskState)
    (rob_task : TaskState) : List TaskState :=
  if !rob_task.motiontask then ctrl
  else if rob_task.name ∈ tasks then
    if !rob_task.active then activate_task ctrl rob_task.name else ctrl
  else
    if rob_task.active then deactivate_task ctrl rob_task.name else ctrl

/-- Embedding of `RWS2.start` (rws2.py lines 169-193).  `ctrl` is the
controller's task store, which is also what the snapshot
`rob_tasks = self.get_tasks()` reports.  The unknown-task check
(`for t in tasks: if t not in rob_tasks: raise ...`) runs before the
activation loop and before the execution-start POST.  Returns the Python
outcome, the final task store, and whether the start POST was issued. -/
def start (cycle : String) (tasks : List String) (ctrl : List TaskState) :
    Except PyErr Unit × (List TaskState × Bool) :=
  match tasks.find? (fun t => !(ctrl.any (fun c => c.name = t))) with
  | some t => (.error (.exception ("Cannot start unknown task " ++ t)), (ctrl, false))
  | none =>
    let ctrl1 := ctrl.foldl (startStep tasks) ctrl
    (.ok (), (ctrl1, true))

/-! Helper lemmas shared between claims. -/

/-- Looking up the key just written by `alistSet` returns the new value. -/
theorem alistGet_alistSet {β : Type} (l : List (String × β)) (k : String) (v : β) :
    alistGet (alistSet l k v) k = some v := by
  induction l with
  | nil => simp [alistSet, alistGet]
  | cons p rest ih =>
    obtain ⟨k', v'⟩ := p
    by_cases h : k' = k
    · simp [alistSet, alistGet, h]
    · simp [alistSet, alistGet, h, ih]

/-! Claim C1. -/

/-- C1: the claim states that every exit path of `set_rapid_variable` —
POST success or raised exception — invokes `release_mastership` after
`request_mastership`, leaving the arbiter Released.  The code has no
`try/finally`: on the failing input where the variable-write POST is
answered with HTTP 403, `_do_post` raises `ABBException`, the exception
propagates, `release_mastership` never runs, and the call exits with the
arbiter still Held. -/
theorem set_rapid_variable_403_leaves_mastership_held :
    (set_rapid_variable "test_num" "42" (some "T_ROB1") (.resp 403 none)
        ⟨.Released, []⟩).1 =
      .error (.abbException "Mastership required for this operation" 403) ∧
    (set_rapid_variable "test_num" "42" (some "T_ROB1") (.resp 403 none)
        ⟨.Released, []⟩).2.mastership = .Held ∧
    "rw/mastership/release" ∉
      (set_rapid_variable "test_num" "42" (some "T_ROB1") (.resp 403 none)
        ⟨.Released, []⟩).2.posts := by
  refine ⟨rfl, rfl, ?_⟩
  decide

/-! Claim C2. -/

/-- Event-log collection response with one entry whose fixed fields are all
well formed, with the declared argument count `argcJ` and with `vals`
embedded as the `argv` value list. -/
def mkElogResp (argcJ : Json) (vals : List Json) : HttpOutcome :=
  .resp 200 (some (.obj [("_embedded", .obj [("resources",
    .arr [.obj [("_title", .str "elog/0/17"), ("msgtype", .str "1"),
      ("code", .str "10012"), ("tstamp", .str "2024-05-01 T 12:30:05"),
      ("title", .str "Motors off"), ("desc", .str "d"), ("conseqs", .str "q"),
      ("causes", .str "c"), ("actions", .str "a"), ("argc", argcJ),
      ("argv", .arr (vals.map (fun v => .obj [("value", v)])))]])])]))

/-- Collecting `arg["value"]` over a list of singleton argument objects
returns exactly the wrapped values. -/
theorem exceptMapList_getValue (vals : List Json) :
    exceptMapList getValueField (vals.map (fun v => Json.obj [("value", v)]))
      = .ok vals := by
  induction vals with
  | nil => rfl
  | cons v vs ih =>
    have hv : getValueField (Json.obj [("value", v)]) = .ok v := rfl
    simp only [List.map_cons, exceptMapList, hv, ih]
    rfl

/-- C2 counterexample: an entry declaring `argc` 2 with a single embedded
`argv` value parses without error into an entry whose `args` list is the
one embedded value — no `MalformedResponseError` (and no error at all) is
raised on the declared-count mismatch. -/
theorem read_event_log_argc_mismatch_accepted :
    read_event_log (mkElogResp (.str "2") [.str "arg1"]) =
      .ok [⟨17, 1, 10012, ⟨2024, 5, 1, 12, 30, 5⟩, [.str "arg1"],
        "Motors off", "d", "q", "c", "a"⟩] := by rfl

/-- C2 amended: `read_event_log` never compares the declared argument
count with the parsed argument entries — the local `nargs` is computed and
discarded.  For any declared count `argcJ` parsing to any integer `n` and
any embedded value list `vals`, of any length, the entry parses
successfully with `args = vals`. -/
theorem read_event_log_ignores_argc (argcJ : Json) (n : Int)
    (vals : List Json) (hargc : pyInt argcJ = .ok n) :
    read_event_log (mkElogResp argcJ vals) =
      .ok [⟨17, 1, 10012, ⟨2024, 5, 1, 12, 30, 5⟩, vals,
        "Motors off", "d", "q", "c", "a"⟩] := by
  have main : read_event_log (mkElogResp argcJ vals) =
      ((pyInt argcJ >>= fun _ =>
        (exceptMapList getValueField (vals.map (fun v => Json.obj [("value", v)]))
          >>= fun args =>
            Except.ok (⟨17, 1, 10012, ⟨2024, 5, 1, 12, 30, 5⟩, args,
              "Motors off", "d", "q", "c", "a"⟩ : EventLogEntry)))
        >>= fun e => Except.ok [e]) := rfl
  rw [main, hargc]
  simp [exceptMapList_getValue, bind, Except.bind]

/-- C2 witness: the amended theorem applied with declared count 1 and
three embedded values — the entry still parses, with all three values. -/
theorem read_event_log_ignores_argc_witness :
    read_event_log (mkElogResp (.num 1) [.str "a", .str "b", .str "c"]) =
      .ok [⟨17, 1, 10012, ⟨2024, 5, 1, 12, 30, 5⟩, [.str "a", .str "b", .str "c"],
        "Motors off", "d", "q", "c", "a"⟩] :=
  read_event_log_ignores_argc (.num 1) 1 [.str "a", .str "b", .str "c"] rfl

/-! Claim C3. -/

/-- C3 counterexample: constructing a `SubscriptionResourceRequest` for
`ControllerState` with `High` priority succeeds — the claimed
request-construction-time rejection of this combination does not exist. -/
theorem subscription_controllerstate_high_accepted :
    subscriptionResourceRequestOfInts 1 2 none =
      some ⟨.ControllerState, .High, none⟩ := rfl

/-- Membership characterization of the resource-type coercion. -/
theorem subscriptionResourceTypeOfInt_isSome (rt : Int) :
    (subscriptionResourceTypeOfInt rt).isSome = true ↔ 1 ≤ rt ∧ rt ≤ 7 := by
  unfold subscriptionResourceTypeOfInt
  split <;> simp_all <;> omega

/-- Membership characterization of the priority coercion. -/
theorem subscriptionResourcePriorityOfInt_isSome (p : Int) :
    (subscriptionResourcePriorityOfInt p).isSome = true ↔ 0 ≤ p ∧ p ≤ 2 := by
  unfold subscriptionResourcePriorityOfInt
  split <;> simp_all <;> omega

/-- C3 amended: construction of `SubscriptionResourceRequest` validates
only that `resource_type` and `priority` are members of their enums
(values 1..7 and 0..2); no combination check exists, so any member pair —
including `ControllerState` with `High` — is accepted. -/
theorem subscription_request_validates_membership_only
    (rt p : Int) (param : Option String) :
    (subscriptionResourceRequestOfInts rt p param).isSome = true ↔
      (1 ≤ rt ∧ rt ≤ 7) ∧ (0 ≤ p ∧ p ≤ 2) := by
  unfold subscriptionResourceRequestOfInts
  constructor
  · intro h
    cases hrt : subscriptionResourceTypeOfInt rt with
    | none => rw [hrt] at h; cases hp : subscriptionResourcePriorityOfInt p <;>
        simp [hp] at h
    | some t =>
      cases hp : subscriptionResourcePriorityOfInt p with
      | none => rw [hrt, hp] at h; simp at h
      | some pr =>
        refine ⟨(subscriptionResourceTypeOfInt_isSome rt).mp ?_,
          (subscriptionResourcePriorityOfInt_isSome p).mp ?_⟩ <;>
          simp [hrt, hp]
  · rintro ⟨h1, h2⟩
    obtain ⟨t, hrt⟩ := Option.isSome_iff_exists.mp
      ((subscriptionResourceTypeOfInt_isSome rt).mpr h1)
    obtain ⟨pr, hp⟩ := Option.isSome_iff_exists.mp
      ((subscriptionResourcePriorityOfInt_isSome p).mpr h2)
    simp [hrt, hp]

/-- C3 witness: the amended theorem applied at resource type 1
(`ControllerState`) and priority 2 (`High`) shows the combination is
accepted. -/
theorem subscription_request_validates_membership_only_witness :
    (subscriptionResourceRequestOfInts 1 2 none).isSome = true :=
  (subscription_request_validates_membership_only 1 2 none).mpr
    ⟨⟨by decide, by decide⟩, ⟨by decide, by decide⟩⟩

/-! Claim C4. -/

/-- C4 counterexample: a received HTTP 500 yields `None` from `_do_get`
and `None` (wrapped in a normal return) from `_do_post` — the failure is
collapsed into the default value instead of surfacing as a typed
`TransportError`. -/
theorem do_get_500_collapses_to_none :
    do_get (.resp 500 (some (.obj []))) = none ∧
    do_post (.resp 500 (some (.obj []))) = .ok none := ⟨rfl, rfl⟩

/-- C4 amended: the transport layer classifies only the 403-on-POST case.
A received non-2xx other than 403 is collapsed to `None` by both `_do_get`
and `_do_post`; HTTP 403 on a POST raises `ABBException` with code 403; a
connection-level failure is collapsed to `None` by `_do_get` but raises
`UnboundLocalError` in `_do_post`'s handler; a 2xx response with a JSON
body passes through. -/
theorem transport_error_classification :
    (∀ (s : Nat) (b : Option Json), 400 ≤ s → s ≠ 403 →
      do_get (.resp s b) = none ∧ do_post (.resp s b) = .ok none) ∧
    (∀ b : Option Json, do_post (.resp 403 b) =
      .error (.abbException "Mastership required for this operation" 403)) ∧
    (do_get .connError = none ∧ do_post .connError = .error .unboundLocalError) ∧
    (∀ (s : Nat) (j : Json), s < 400 →
      do_get (.resp s (some j)) = some j ∧
      do_post (.resp s (some j)) = .ok (some j)) := by
  refine ⟨?_, ?_, ⟨rfl, rfl⟩, ?_⟩
  · intro s b h4 h403
    constructor
    · simp [do_get, raiseForStatus, h4]
    · simp [do_post, raiseForStatus, h4, h403]
  · intro b
    simp [do_post, raiseForStatus]
  · intro s j hlt
    have h : ¬ 400 ≤ s := by omega
    constructor
    · simp [do_get, raiseForStatus, h, responseJson]
    · simp [do_post, raiseForStatus, h, responseJson]

/-- C4 witness: the amended classification applied at a concrete 403 POST
response. -/
theorem transport_error_classification_witness :
    do_post (.resp 403 (some (.obj []))) =
      .error (.abbException "Mastership required for this operation" 403) :=
  transport_error_classification.2.1 (some (.obj []))

/-! Claim C5. -/

/-- Success and error propagation through `Except` bind. -/
theorem exceptBind_eq_ok {α β : Type} (x : Except PyErr α)
    (f : α → Except PyErr β) (b : β) :
    (x >>= f) = .ok b ↔ ∃ a, x = .ok a ∧ f a = .ok b := by
  cases x <;> simp [bind, Except.bind]

/-- Robtarget response whose state carries every numeric field except
`q1`. -/
def robtargetMissingQ1 : HttpOutcome :=
  .resp 200 (some (.obj [("state", .arr [.obj
    [("x", .str "10.5"), ("y", .str "-20"), ("z", .str "978"),
     ("q2", .str "0"), ("q3", .str "0"), ("q4", .str "1"),
     ("cf1", .str "0"), ("cf4", .str "0"), ("cf6", .str "0"), ("cfx", .str "0"),
     ("eax_a", .str "0"), ("eax_b", .str "0"), ("eax_c", .str "0"),
     ("eax_d", .str "0"), ("eax_e", .str "0"), ("eax_f", .str "0")]])]))

/-- C5 counterexample: when the rotation group is incomplete (missing
`q1`), `get_robtarget` fails with the key-access fault `KeyError("q1")` —
not with the `MalformedResponseError` the claim names (no such error type
exists in the code). -/
theorem get_robtarget_missing_q1_keyerror :
    get_robtarget robtargetMissingQ1 = .error (.keyError "q1") := by rfl

/-- C5 amended: a `RobTarget` is constructed exactly when all four numeric
groups — translation, rotation, configuration and external axes — extract
and convert successfully from the response state, and its components are
those groups; on any group failure the underlying fault (`KeyError`,
`ValueError` or `TypeError`) propagates instead of a
`MalformedResponseError`. -/
theorem get_robtarget_all_groups (o : HttpOutcome) :
    (∀ st t r c e, robtargetState o = .ok st →
       numGroup st ["x", "y", "z"] = .ok t →
       numGroup st ["q1", "q2", "q3", "q4"] = .ok r →
       numGroup st ["cf1", "cf4", "cf6", "cfx"] = .ok c →
       numGroup st ["eax_a", "eax_b", "eax_c", "eax_d", "eax_e", "eax_f"] = .ok e →
       get_robtarget o = .ok ⟨t, r, c, e⟩) ∧
    (∀ rt, get_robtarget o = .ok rt →
       ∃ st, robtargetState o = .ok st ∧
         numGroup st ["x", "y", "z"] = .ok rt.trans ∧
         numGroup st ["q1", "q2", "q3", "q4"] = .ok rt.rot ∧
         numGroup st ["cf1", "cf4", "cf6", "cfx"] = .ok rt.robconf ∧
         numGroup st ["eax_a", "eax_b", "eax_c", "eax_d", "eax_e", "eax_f"]
           = .ok rt.extax) := by
  constructor
  · intro st t r c e hst ht hr hc he
    simp [get_robtarget, hst, ht, hr, hc, he, bind, Except.bind, pure, Except.pure]
  · intro rt hrt
    unfold get_robtarget at hrt
    rw [exceptBind_eq_ok] at hrt
    obtain ⟨st, hst, hrt⟩ := hrt
    rw [exceptBind_eq_ok] at hrt
    obtain ⟨t, h1, hrt⟩ := hrt
    rw [exceptBind_eq_ok] at hrt
    obtain ⟨r, h2, hrt⟩ := hrt
    rw [exceptBind_eq_ok] at hrt
    obtain ⟨c, h3, hrt⟩ := hrt
    rw [exceptBind_eq_ok] at hrt
    obtain ⟨e, h4, hrt⟩ := hrt
    have hrteq : rt = ⟨t, r, c, e⟩ := by
      simpa [pure, Except.pure] using hrt.symm
    subst hrteq
    exact ⟨st, hst, h1, h2, h3, h4⟩

/-- Robtarget response with all sixteen numeric fields present. -/
def robtargetComplete : HttpOutcome :=
  .resp 200 (some (.obj [("state", .arr [.obj
    [("x", .str "10"), ("y", .str "-20"), ("z", .str "978"),
     ("q1", .str "0"), ("q2", .str "0"), ("q3", .str "0"), ("q4", .str "1"),
     ("cf1", .str "0"), ("cf4", .str "0"), ("cf6", .str "0"), ("cfx", .str "0"),
     ("eax_a", .str "0"), ("eax_b", .str "0"), ("eax_c", .str "0"),
     ("eax_d", .str "0"), ("eax_e", .str "0"), ("eax_f", .str "0")]])]))

/-- C5 witness: the amended theorem applied to a complete response, whose
four groups all convert, constructing the corresponding `RobTarget`. -/
theorem get_robtarget_all_groups_witness :
    get_robtarget robtargetComplete =
      .ok ⟨[10, -20, 978], [0, 0, 0, 1], [0, 0, 0, 0], [0, 0, 0, 0, 0, 0]⟩ :=
  (get_robtarget_all_groups robtargetComplete).1
    (.obj
      [("x", .str "10"), ("y", .str "-20"), ("z", .str "978"),
       ("q1", .str "0"), ("q2", .str "0"), ("q3", .str "0"), ("q4", .str "1"),
       ("cf1", .str "0"), ("cf4", .str "0"), ("cf6", .str "0"), ("cfx", .str "0"),
       ("eax_a", .str "0"), ("eax_b", .str "0"), ("eax_c", .str "0"),
       ("eax_d", .str "0"), ("eax_e", .str "0"), ("eax_f", .str "0")])
    [10, -20, 978] [0, 0, 0, 1] [0, 0, 0, 0] [0, 0, 0, 0, 0, 0]
    rfl rfl rfl rfl rfl

/-! Claim C6. -/

/-- Task-collection response wrapping the given entries. -/
def tasksResp (entries : List Json) : HttpOutcome :=
  .resp 200 (some (.obj [("_embedded", .obj [("resources", .arr entries)])]))

/-- An entry without a `name` binding cannot validate. -/
theorem validate_none_of_no_name (fs : List (String × Json))
    (h : alistGet fs "name" = none) : taskStateValidate (.obj fs) = none := by
  simp [taskStateValidate, h, bind, Option.bind]

/-- Over object entries the task loop never raises: it equals the pure
fold that inserts each validated entry and skips the rest. -/
theorem taskFold_ok (entries : List Json) (acc : List (String × TaskState))
    (hobj : ∀ e ∈ entries, ∃ fs, e = Json.obj fs) :
    taskFold entries acc = .ok (entries.foldl
      (fun a s => match taskStateValidate s with
        | some ts => alistSet a ts.name ts
        | none => a) acc) := by
  induction entries generalizing acc with
  | nil => rfl
  | cons s rest ih =>
    obtain ⟨fs, hs⟩ := hobj s (List.mem_cons_self s rest)
    subst hs
    have hrest : ∀ e ∈ rest, ∃ fs, e = Json.obj fs :=
      fun e he => hobj e (List.mem_cons_of_mem _ he)
    cases hname : alistGet fs "name" with
    | none =>
      have hv : taskStateValidate (.obj fs) = none := validate_none_of_no_name fs hname
      simp [taskFold, Json.hasKey, hname, hv, ih _ hrest, bind, Except.bind]
    | some nv =>
      cases hv : taskStateValidate (.obj fs) with
      | none => simp [taskFold, Json.hasKey, hname, hv, ih _ hrest, bind, Except.bind]
      | some ts => simp [taskFold, Json.hasKey, hname, hv, ih _ hrest, bind, Except.bind]

/-- Inserting a fresh key appends the binding. -/
theorem alistSet_fresh {β : Type} (l : List (String × β)) (k : String) (v : β)
    (h : ∀ p ∈ l, p.1 ≠ k) : alistSet l k v = l ++ [(k, v)] := by
  induction l with
  | nil => rfl
  | cons p rest ih =>
    obtain ⟨k', v'⟩ := p
    have hne : k' ≠ k := h (k', v') (List.mem_cons_self _ _)
    simp [alistSet, hne, ih (fun q hq => h q (List.mem_cons_of_mem _ hq))]

/-- With pairwise-distinct validated names that are fresh for the
accumulator, the insertion fold appends exactly the validated entries in
order. -/
theorem foldl_step_append (entries : List Json) (acc : List (String × TaskState))
    (hnodup : (entries.filterMap taskStateValidate).Pairwise
      (fun a b => a.name ≠ b.name))
    (hfresh : ∀ ts ∈ entries.filterMap taskStateValidate,
      ∀ p ∈ acc, p.1 ≠ ts.name) :
    entries.foldl (fun a s => match taskStateValidate s with
      | some ts => alistSet a ts.name ts
      | none => a) acc
      = acc ++ (entries.filterMap taskStateValidate).map (fun ts => (ts.name, ts)) := by
  induction entries generalizing acc with
  | nil => simp
  | cons s rest ih =>
    cases hv : taskStateValidate s with
    | none =>
      have hmap : (s :: rest).filterMap taskStateValidate
          = rest.filterMap taskStateValidate := by
        simp [List.filterMap_cons, hv]
      rw [List.foldl_cons]
      rw [hmap] at hnodup hfresh ⊢
      have step : (match taskStateValidate s with
        | some ts => alistSet acc ts.name ts
        | none => acc) = acc := by rw [hv]
      rw [step]
      exact ih acc hnodup hfresh
    | some ts =>
      have hmap : (s :: rest).filterMap taskStateValidate =
          ts :: rest.filterMap taskStateValidate := by
        simp [List.filterMap_cons, hv]
      rw [List.foldl_cons]
      have step : (match taskStateValidate s with
        | some ts' => alistSet acc ts'.name ts'
        | none => acc) = alistSet acc ts.name ts := by rw [hv]
      rw [step]
      rw [hmap] at hnodup hfresh
      have hfresh_ts : ∀ p ∈ acc, p.1 ≠ ts.name :=
        hfresh ts (List.mem_cons_self _ _)
      rw [alistSet_fresh acc ts.name ts hfresh_ts]
      have hnodup' := (List.pairwise_cons.mp hnodup).2
      have hts_ne := (List.pairwise_cons.mp hnodup).1
      have hfresh' : ∀ ts' ∈ rest.filterMap taskStateValidate,
          ∀ p ∈ acc ++ [(ts.name, ts)], p.1 ≠ ts'.name := by
        intro ts' hts' p hp
        rcases List.mem_append.mp hp with hpa | hpb
        · exact hfresh ts' (List.mem_cons_of_mem _ hts') p hpa
        · have hpeq : p = (ts.name, ts) := List.mem_singleton.mp hpb
          rw [hpeq]
          exact hts_ne ts' hts'
      rw [ih (acc ++ [(ts.name, ts)]) hnodup' hfresh']
      simp [hmap]

/-- C6: over a task-collection response of object entries with distinct
validated names, `get_tasks` does not raise — it skips every malformed
entry and returns exactly the well-formed ones, keyed by name, in
collection order. -/
theorem get_tasks_skips_malformed (entries : List Json)
    (hobj : ∀ e ∈ entries, ∃ fs, e = Json.obj fs)
    (hnodup : (entries.filterMap taskStateValidate).Pairwise
      (fun a b => a.name ≠ b.name)) :
    get_tasks (tasksResp entries) =
      .ok ((entries.filterMap taskStateValidate).map (fun ts => (ts.name, ts))) := by
  have h0 : get_tasks (tasksResp entries) = taskFold entries [] := rfl
  rw [h0, taskFold_ok entries [] hobj,
    foldl_step_append entries [] hnodup (by simp)]
  simp

/-- C6 witness: one well-formed and one malformed entry yield exactly the
well-formed entry, without raising. -/
theorem get_tasks_skips_malformed_witness :
    get_tasks (tasksResp
      [.obj [("name", .str "T_ROB1"), ("type", .str "rapid"),
        ("taskstate", .str "ready"), ("excstate", .str "stopped"),
        ("active", .boolean true), ("motiontask", .boolean true)],
       .obj [("name", .str "T_BAD")]]) =
      .ok [("T_ROB1", ⟨"T_ROB1", "rapid", "ready", "stopped", true, true⟩)] :=
  get_tasks_skips_malformed _
    (by
      intro e he
      simp at he
      rcases he with h | h <;> exact ⟨_, h⟩)
    (by decide)

/-! Claim C7. -/

/-- Effect of one activation-loop iteration for snapshot entry `rt` on a
single stored task `c`: the per-element view of `startStep`. -/
def stepOne (S : List String) (rt c : TaskState) : TaskState :=
  if !rt.motiontask then c
  else if rt.name ∈ S then
    (if !rt.active then (if c.name = rt.name then { c with active := true } else c) else c)
  else
    (if rt.active then (if c.name = rt.name then { c with active := false } else c) else c)

/-- One loop iteration maps `stepOne` over the whole store. -/
theorem startStep_eq_map (S : List String) (ctrl : List TaskState) (rt : TaskState) :
    startStep S ctrl rt = ctrl.map (stepOne S rt) := by
  symm
  cases h1 : rt.motiontask with
  | false =>
    have hid : ∀ c ∈ ctrl, stepOne S rt c = c := fun c _ => by simp [stepOne, h1]
    rw [List.map_congr_left hid, List.map_id']
    simp [startStep, h1]
  | true =>
    by_cases h2 : rt.name ∈ S
    · cases h3 : rt.active with
      | false =>
        have hfn : ∀ c ∈ ctrl, stepOne S rt c =
            (if c.name = rt.name then { c with active := true } else c) :=
          fun c _ => by simp [stepOne, h1, h2, h3]
        rw [List.map_congr_left hfn]
        simp [startStep, activate_task, h1, h2, h3]
      | true =>
        have hid : ∀ c ∈ ctrl, stepOne S rt c = c := fun c _ => by
          simp [stepOne, h1, h2, h3]
        rw [List.map_congr_left hid, List.map_id']
        simp [startStep, h1, h2, h3]
    · cases h3 : rt.active with
      | true =>
        have hfn : ∀ c ∈ ctrl, stepOne S rt c =
            (if c.name = rt.name then { c with active := false } else c) :=
          fun c _ => by simp [stepOne, h1, h2, h3]
        rw [List.map_congr_left hfn]
        simp [startStep, deactivate_task, h1, h2, h3]
      | false =>
        have hid : ∀ c ∈ ctrl, stepOne S rt c = c := fun c _ => by
          simp [stepOne, h1, h2, h3]
        rw [List.map_congr_left hid, List.map_id']
        simp [startStep, h1, h2, h3]

/-- The activation loop is the map of the per-element folds. -/
theorem fold_fusion (S : List String) (snap ctrl : List TaskState) :
    snap.foldl (startStep S) ctrl =
      ctrl.map (fun c => snap.foldl (fun x rt => stepOne S rt x) c) := by
  induction snap generalizing ctrl with
  | nil => simp
  | cons rt snap ih =>
    rw [List.foldl_cons, ih, startStep_eq_map, List.map_map]
    simp [Function.comp]

/-- A snapshot entry with a different name leaves a task unchanged. -/
theorem stepOne_ne (S : List String) (rt c : TaskState) (h : rt.name ≠ c.name) :
    stepOne S rt c = c := by
  have hc : ¬(c.name = rt.name) := fun hh => h hh.symm
  unfold stepOne
  split_ifs <;> simp_all

/-- `stepOne` never changes the task name. -/
theorem stepOne_name (S : List String) (rt c : TaskState) :
    (stepOne S rt c).name = c.name := by
  unfold stepOne
  split_ifs <;> rfl

/-- A fold over snapshot entries, none sharing the task's name, is the
identity on that task. -/
theorem foldOne_no_name (S : List String) (snap : List TaskState) (c : TaskState)
    (h : ∀ rt ∈ snap, rt.name ≠ c.name) :
    snap.foldl (fun x rt => stepOne S rt x) c = c := by
  induction snap with
  | nil => rfl
  | cons rt snap ih =>
    rw [List.foldl_cons, stepOne_ne S rt c (h rt (List.mem_cons_self _ _))]
    exact ih (fun r hr => h r (List.mem_cons_of_mem _ hr))

/-- A task acted on by its own snapshot entry ends with
`active = (name ∈ S)` when it is a motion task and unchanged otherwise. -/
theorem stepOne_self (S : List String) (c : TaskState) :
    stepOne S c c =
      if c.motiontask then { c with active := decide (c.name ∈ S) } else c := by
  obtain ⟨n, ty, tsk, ex, act, mt⟩ := c
  cases mt <;> by_cases h2 : n ∈ S <;> cases act <;> simp [stepOne, h2]

/-- Under pairwise-distinct names, the only snapshot entry affecting a
stored task is its own, giving the final activation value directly. -/
theorem foldOne_unique (S : List String) (ctrl : List TaskState) (c : TaskState)
    (hc : c ∈ ctrl) (hnodup : ctrl.Pairwise (fun a b => a.name ≠ b.name)) :
    ctrl.foldl (fun x rt => stepOne S rt x) c =
      if c.motiontask then { c with active := decide (c.name ∈ S) } else c := by
  obtain ⟨l1, l2, rfl⟩ := List.append_of_mem hc
  rw [List.foldl_append, List.foldl_cons]
  rw [List.pairwise_append] at hnodup
  obtain ⟨h1, h23, hcross⟩ := hnodup
  have hl1 : ∀ rt ∈ l1, rt.name ≠ c.name := fun rt hrt =>
    hcross rt hrt c (List.mem_cons_self _ _)
  rw [foldOne_no_name S l1 c hl1]
  obtain ⟨hhead, h2⟩ := List.pairwise_cons.mp h23
  have hl2 : ∀ rt ∈ l2, rt.name ≠ (stepOne S c c).name := by
    intro rt hrt
    rw [stepOne_name]
    exact fun hh => hhead rt hrt hh.symm
  rw [foldOne_no_name S l2 _ hl2, stepOne_self]

/-- C7: for a task store with distinct names, when every requested name
exists, `start` succeeds, issues the execution-start request, and leaves
the store with each motion task active exactly when its name is in the
requested set `S` — inactive requested motion tasks are activated, active
unrequested motion tasks are deactivated, and non-motion tasks are
untouched. -/
theorem start_activates_exactly (cycle : String) (S : List String)
    (ctrl : List TaskState)
    (hnodup : ctrl.Pairwise (fun a b => a.name ≠ b.name))
    (hS : ∀ s ∈ S, ∃ c ∈ ctrl, c.name = s) :
    start cycle S ctrl =
      (.ok (), (ctrl.map (fun c =>
        if c.motiontask then { c with active := decide (c.name ∈ S) } else c),
        true)) := by
  have hfind : S.find? (fun t => !(ctrl.any (fun c => c.name = t))) = none := by
    rw [List.find?_eq_none]
    intro t ht
    obtain ⟨c, hcmem, hname⟩ := hS t ht
    simp [List.any_eq_true]
    exact ⟨c, hcmem, hname⟩
  unfold start
  rw [hfind]
  dsimp only
  rw [fold_fusion]
  rw [List.map_congr_left (fun c hcm => foldOne_unique S ctrl c hcm hnodup)]

/-- C7 witness: activating `{A}` while motion task `B` is active: `A` is
activated, `B` is deactivated, no motion task outside `{A}` stays
active. -/
theorem start_activates_exactly_witness :
    start "asis" ["A"]
      [⟨"A", "rapid", "ready", "stopped", false, true⟩,
       ⟨"B", "rapid", "ready", "stopped", true, true⟩] =
      (.ok (), ([⟨"A", "rapid", "ready", "stopped", true, true⟩,
        ⟨"B", "rapid", "ready", "stopped", false, true⟩], true)) := by
  rw [start_activates_exactly "asis" ["A"] _ (by decide)
    (by
      intro s hs
      simp at hs
      subst hs
      exact ⟨⟨"A", "rapid", "ready", "stopped", false, true⟩, by simp, rfl⟩)]
  rfl

/-! Claim C8. -/

/-- C8: setting a RAPID pers variable on the repository's controller model
and reading it back under the same qualified key yields the stored
canonical string; for numeric values, writing `encode v` and decoding the
read-back yields `v` whenever the Python `float`/`str` codec round-trips
on `v` (which CPython guarantees for floats). -/
theorem rapid_variable_round_trip {α : Type} (encode : α → String)
    (decode : String → α) (st : RWSMockState) (var task value : String) (v : α)
    (h : decode (encode v) = v) :
    mock_get_rapid_variable (mock_set_rapid_variable st var value task) var task
        = value ∧
    mock_get_rapid_variable_num decode
        (mock_set_rapid_variable_num encode st var v task) var task = v := by
  constructor
  · simp [mock_get_rapid_variable, mock_set_rapid_variable, alistGet_alistSet]
  · simp [mock_get_rapid_variable_num, mock_set_rapid_variable_num,
      mock_get_rapid_variable, mock_set_rapid_variable, alistGet_alistSet, h]

/-- C8 witness: the round trip at `test_num`, value 42, with the decimal
`Nat` codec standing for Python's `str`/`float` pair. -/
theorem rapid_variable_round_trip_witness :
    mock_get_rapid_variable
        (mock_set_rapid_variable ⟨[], [], []⟩ "test_num" "42" "T_ROB1")
        "test_num" "T_ROB1" = "42" ∧
    mock_get_rapid_variable_num (fun s => digitsVal s.toList)
        (mock_set_rapid_variable_num (fun n => toString n) ⟨[], [], []⟩
          "test_num" (42 : Nat) "T_ROB1") "test_num" "T_ROB1" = 42 :=
  rapid_variable_round_trip (fun n : Nat => toString n)
    (fun s => digitsVal s.toList) ⟨[], [], []⟩ "test_num" "T_ROB1" "42" 42
    (by rfl)

/-! Claim C9. -/

/-- C9: reading a signal with fully-qualified addressing and with
bare-name addressing returns equal values.  On the repository's controller
model the `network`/`unit` arguments are ignored outright, and in
`RWS2.get_io` both addressing modes apply the identical
`_embedded.resources[0].lvalue` extraction, so whenever the controller
resolves the qualified path and the bare path to the same response — the
meaning of "the same underlying signal" — the returned values are
equal. -/
theorem io_addressing_equivalence (st : RWSMockState)
    (signal network unit : String) (ctrl : String → HttpOutcome) :
    mock_get_digital_io st signal network unit
        = mock_get_digital_io st signal "" "" ∧
    mock_get_analog_io st signal network unit
        = mock_get_analog_io st signal "" "" ∧
    (network ≠ "" → unit ≠ "" →
      ctrl (ioQualifiedPath network unit signal) = ctrl (ioBarePath signal) →
      get_io signal network unit ctrl = get_io signal "" "" ctrl) := by
  refine ⟨rfl, rfl, fun hn hu heq => ?_⟩
  simp [get_io, hn, hu, heq]

/-- C9 witness: the equivalence at signal `Auto` addressed through
`Local/DRV_1` versus bare-name, on a controller that serves the same
signal record at both paths. -/
theorem io_addressing_equivalence_witness :
    get_io "Auto" "Local" "DRV_1"
        (fun _ => .resp 200 (some (.obj [("_embedded", .obj [("resources",
          .arr [.obj [("name", .str "Auto"), ("lvalue", .str "1")]])])]))) =
      get_io "Auto" "" ""
        (fun _ => .resp 200 (some (.obj [("_embedded", .obj [("resources",
          .arr [.obj [("name", .str "Auto"), ("lvalue", .str "1")]])])]))) :=
  (io_addressing_equivalence ⟨[], [], []⟩ "Auto" "Local" "DRV_1" _).2.2
    (by decide) (by decide) rfl

/-! Claim C10. -/

/-- C10: when some requested task name is not among the controller's
tasks, `start` raises before performing any activation, deactivation or
execution-start request: it exits with an exception, the task store is
unchanged, and the start POST is not issued. -/
theorem start_unknown_task_raises (cycle : String) (tasks : List String)
    (ctrl : List TaskState) (t : String) (ht : t ∈ tasks)
    (hun : ∀ c ∈ ctrl, c.name ≠ t) :
    (∃ msg, (start cycle tasks ctrl).1 = .error (.exception msg)) ∧
    (start cycle tasks ctrl).2 = (ctrl, false) := by
  have hpred : (fun u => !(ctrl.any (fun c => c.name = u))) t = true := by
    simp only [Bool.not_eq_true']
    rw [List.any_eq_false]
    intro c hc
    simp [hun c hc]
  have hsome : (tasks.find? (fun u => !(ctrl.any (fun c => c.name = u)))).isSome := by
    rw [List.find?_isSome]
    exact ⟨t, ht, hpred⟩
  obtain ⟨u, hu⟩ := Option.isSome_iff_exists.mp hsome
  rw [start, hu]
  exact ⟨⟨_, rfl⟩, rfl⟩

/-- C10 witness: requesting the unknown task `T_ROB5` against a controller
that only has `T_ROB1` raises and leaves the store untouched. -/
theorem start_unknown_task_raises_witness :
    (∃ msg, (start "asis" ["T_ROB5"]
        [⟨"T_ROB1", "NORMAL", "ready", "stopped", true, true⟩]).1 =
      .error (.exception msg)) ∧
    (start "asis" ["T_ROB5"]
        [⟨"T_ROB1", "NORMAL", "ready", "stopped", true, true⟩]).2 =
      ([⟨"T_ROB1", "NORMAL", "ready", "stopped", true, true⟩], false) :=
  start_unknown_task_raises "asis" ["T_ROB5"]
    [⟨"T_ROB1", "NORMAL", "ready", "stopped", true, true⟩] "T_ROB5"
    (by decide) (by intro c hc; simp at hc; simp [hc])

end AbbClient
